import Mathlib

/-!
Verification of the inquiry-resolution pipeline of an infrastructure
ticketing assistant.  The pipeline classifies a free-text question,
attempts to answer it from a knowledge base behind a relevance gate and a
cache, and otherwise routes it to a team and drafts a ticket.

The embedding is shallow: every collaborator that performs I/O (the three
language-model call sites, the vector-search backend, the cache) is a
function parameter; a call that can raise is modelled as `Except String`
with the `try/except` handlers of the source reproduced as `match`es.
Distance scores are embedded as rationals.  String operations of the
source (`lower`, `strip`, `split`, substring tests) are modelled by
executable functions on the character list of a string.
-/

namespace ITA

/-- Model of Python `str.lower` (character-wise ASCII lowering). -/
def lowerStr (s : String) : String :=
  ⟨s.data.map Char.toLower⟩

/-- `a` begins with `pre` (on character lists). -/
def prefCL (pre l : List Char) : Bool :=
  match pre, l with
  | [], _ => true
  | _ :: _, [] => false
  | a :: as, b :: bs => a == b && prefCL as bs

/-- `needle` occurs somewhere inside `hay` (on character lists). -/
def subCL (needle : List Char) (hay : List Char) : Bool :=
  match hay with
  | [] => needle.isEmpty
  | _ :: rest => prefCL needle hay || subCL needle rest

/-- Model of Python `needle in hay` for strings. -/
def strHas (hay needle : String) : Bool :=
  subCL needle.data hay.data

/-- Characters Python `str.strip` removes. -/
def isPySpace (c : Char) : Bool :=
  c == ' ' || c == '\t' || c == '\n' || c == '\r' || c == '\x0B' || c == '\x0C'

/-- Strip whitespace from both ends of a character list. -/
def stripCL (l : List Char) : List Char :=
  ((l.dropWhile isPySpace).reverse.dropWhile isPySpace).reverse

/-- Model of Python `str.strip`. -/
def pyStrip (s : String) : String :=
  ⟨stripCL s.data⟩

/-- Model of Python `str.split(sep)` for a one-character separator. -/
def splitCL (sep : Char) : List Char → List (List Char)
  | [] => [[]]
  | c :: rest =>
      match splitCL sep rest with
      | [] => [[]]
      | g :: gs => if c == sep then [] :: g :: gs else (c :: g) :: gs

/-- Model of Python `str.split(sep, 1)`: the part before the first `sep`,
and the rest when `sep` occurs at all. -/
def splitFirstCL (sep : Char) : List Char → List Char × Option (List Char)
  | [] => ([], none)
  | c :: rest =>
      if c == sep then ([], some rest)
      else
        let p := splitFirstCL sep rest
        (c :: p.1, p.2)

/-! ## Router (`src/agents/router_agent.py`) -/

/-- `RouterAgent.TEAMS`: the fixed team enumeration with each team's
keyword list, in the source's insertion order. -/
def TEAMS : List (String × List String) :=
  [("platform", ["kubernetes", "k8s", "pod", "deployment", "container",
                 "docker", "scaling", "orchestration"]),
   ("devops", ["ci/cd", "pipeline", "jenkins", "gitlab", "monitoring",
               "prometheus", "grafana", "alert", "automation"]),
   ("database", ["postgres", "postgresql", "mysql", "database", "db", "sql",
                 "connection", "query", "performance"]),
   ("security", ["ssl", "tls", "certificate", "auth", "access", "permission",
                 "vulnerability", "compliance", "firewall"]),
   ("network", ["dns", "load balancer", "nginx", "connectivity", "network",
                "routing", "port", "ip"])]

/-- A team's score in `_keyword_match`: one point per keyword of the team
occurring as a literal substring of `text` (each keyword counted once). -/
def teamScore (text : String) (kws : List String) : Nat :=
  (kws.filter (fun k => strHas text k)).length

/-- `RouterAgent._keyword_match`: score every team, and return the first
team (in `TEAMS` order) attaining the maximal score when that maximum is
positive, `none` otherwise. -/
def keywordMatch (text : String) : Option String :=
  let scores := TEAMS.map (fun p => (p.1, teamScore text p.2))
  let maxScore := (scores.map Prod.snd).foldl Nat.max 0
  if 0 < maxScore then
    (scores.find? (fun p => p.2 == maxScore)).map Prod.fst
  else none

/-- `RouterAgent._extract_team`: the first team of the enumeration whose
name occurs in the lower-cased response, `"platform"` when none does. -/
def extractTeam (response : String) : String :=
  match TEAMS.find? (fun p => strHas (lowerStr response) p.1) with
  | some p => p.1
  | none => "platform"

/-- The routing decision record of `route_inquiry`. -/
structure RoutingDecision where
  team : String
  method : String
  confidence : String
  reason : String
deriving DecidableEq

/-- `RouterAgent.route_inquiry`: keyword matching first; on no keyword hit
invoke the model (`llm question category`, with `"general"` replacing an
empty category); a model exception degrades to the platform default. -/
def route_inquiry (llm : String → String → Except String String)
    (question category : String) : RoutingDecision :=
  match keywordMatch (lowerStr question) with
  | some t =>
      ⟨t, "keyword", "high", "Matched keywords for " ++ t ++ " team"⟩
  | none =>
      match llm question (if category = "" then "general" else category) with
      | .ok response =>
          ⟨extractTeam response, "llm", "medium", pyStrip response⟩
      | .error _ =>
          ⟨"platform", "default", "low", "Default routing due to error"⟩

/-! ## Vector store (`src/db/vector_store.py`) -/

/-- A raw hit of the search backend: stored metadata plus a distance. -/
structure RawHit where
  question : String
  answer : String
  team : String
  tags : List String
  entry_id : String
  distance : ℚ
deriving DecidableEq

/-- A formatted retrieval candidate as `VectorStore.search` returns it. -/
structure Candidate where
  question : String
  answer : String
  team : String
  tags : List String
  entry_id : String
  score : ℚ
  relevance : String
deriving DecidableEq

/-- The relevance-tier bucketing of `VectorStore.search`:
distance `< 0.3 → high`, `< 0.6 → medium`, else `low`. -/
def tierOf (distance : ℚ) : String :=
  if distance < 3/10 then "high"
  else if distance < 6/10 then "medium"
  else "low"

/-- `VectorStore.search`: query the backend (any exception is caught and
yields `[]`), and format each hit with its tier derived from its distance. -/
def vectorSearch (backend : String → Nat → Except String (List RawHit))
    (query : String) (k : Nat) : List Candidate :=
  match backend query k with
  | .error _ => []
  | .ok raws =>
      raws.map (fun r =>
        ⟨r.question, r.answer, r.team, r.tags, r.entry_id, r.distance,
         tierOf r.distance⟩)

/-! ## Knowledge agent (`src/agents/knowledge_agent.py`) -/

/-- Python truthiness of `cache.get`'s result as the source tests it
(`if cached_result:`): true exactly for a present, non-empty list. -/
def pyTruthy : Option (List Candidate) → Bool
  | some (_ :: _) => true
  | _ => false

/-- What one call of `KnowledgeAgent.search_knowledge_base` returns and
does: the candidate set handed back, whether the search backend was
queried, and the cache write performed (key, value, ttl), if any. -/
structure SearchOut where
  results : List Candidate
  backendQueried : Bool
  cacheWrite : Option (String × List Candidate × Nat)
deriving DecidableEq

/-- `KnowledgeAgent.search_knowledge_base`: look the exact question up in
the cache under `"kb_search:" + query`; on a (truthy) hit return the
cached set unchanged, else query the vector store and cache the result
for 3600 seconds when it is non-empty. -/
def search_knowledge_base (cacheGet : String → Option (List Candidate))
    (backend : String → Nat → Except String (List RawHit))
    (query : String) (k : Nat) : SearchOut :=
  let cache_key := "kb_search:" ++ query
  let cached := cacheGet cache_key
  if pyTruthy cached then
    ⟨cached.getD [], false, none⟩
  else
    let results := vectorSearch backend query k
    if results.isEmpty then ⟨results, true, none⟩
    else ⟨results, true, some (cache_key, results, 3600)⟩

/-- The dictionary `KnowledgeAgent.answer_question` returns; keys the
source sets only on some paths are `Option`s. -/
structure KBAnswer where
  found : Bool
  answer : Option String
  source : Option Candidate
  confidence : String
  search_attempted : Option Bool
  errmsg : Option String
  all_results : Option (List Candidate)
deriving DecidableEq

/-- The strict gate of `answer_question`: keep a candidate only when its
tier is `"high"` and its distance score is below 0.4. -/
def strictGate (r : Candidate) : Bool :=
  r.relevance == "high" && r.score < 2/5

/-- One block of the search-result text handed to answer synthesis. -/
def formatResult (i : Nat) (r : Candidate) : String :=
  "Result " ++ toString (i + 1) ++ ":\nQuestion: " ++ r.question ++
  "\nAnswer: " ++ r.answer ++ "\nTeam: " ++ r.team ++
  "\nTags: " ++ String.intercalate ", " r.tags

/-- The `"\n\n"`-joined search-result text handed to answer synthesis. -/
def formatResults (rs : List Candidate) : String :=
  String.intercalate "\n\n" (rs.enum.map (fun p => formatResult p.1 p.2))

/-- What one call of `KnowledgeAgent.answer_question` returns and does:
the answer record, whether synthesis was invoked, and the inner
`search_knowledge_base` call's outcome. -/
structure AnswerOut where
  res : KBAnswer
  synthesisQueried : Bool
  search : SearchOut
deriving DecidableEq

/-- `KnowledgeAgent.answer_question`: retrieve candidates; an empty set
returns `found=false, confidence="none"`; a set the strict gate empties
returns `found=false, confidence="low"`; otherwise synthesis is invoked,
a synthesis exception yields `found=false, confidence="error"`, and
success yields `found=true` with the first surviving candidate as source
and its tier as confidence. -/
def answer_question (synth : String → String → Except String String)
    (cacheGet : String → Option (List Candidate))
    (backend : String → Nat → Except String (List RawHit))
    (question : String) : AnswerOut :=
  let so := search_knowledge_base cacheGet backend question 3
  let search_results := so.results
  if search_results.isEmpty then
    ⟨⟨false, none, none, "none", none, none, none⟩, false, so⟩
  else
    let high_relevance := search_results.filter strictGate
    match high_relevance with
    | [] => ⟨⟨false, none, none, "low", some true, none, none⟩, false, so⟩
    | best :: rest =>
        match synth question (formatResults (best :: rest)) with
        | .ok ans =>
            ⟨⟨true, some ans, some best, best.relevance, none, none,
              some (best :: rest)⟩, true, so⟩
        | .error e =>
            ⟨⟨false, none, none, "error", none, some e, none⟩, true, so⟩

/-! ## Inquiry classifier (`src/agents/supervisor.py`, `_classify_inquiry`) -/

/-- The classification dictionary: each key is present only once a parsed
line has set it. -/
structure Classification where
  urgency : Option String
  category : Option String
  needs_ticket : Option Bool
deriving DecidableEq

/-- The fixed default classification returned when the model call raises. -/
def defaultClassification : Classification :=
  ⟨some "medium", some "other", some true⟩

/-- Key normalization of the parser: strip, lower-case, underscores to
spaces. -/
def normKey (k : List Char) : List Char :=
  ((stripCL k).map Char.toLower).map (fun c => if c == '_' then ' ' else c)

/-- One line of the classifier response applied to the accumulating
dictionary: lines without a colon are skipped; the key is normalized and
matched by substring (`urgency`, then `category`, then `needs`/`ticket`);
the value is stripped and lower-cased; `needs_ticket` is the test
`value == "yes"`. -/
def applyLine (cls : Classification) (line : List Char) : Classification :=
  match splitFirstCL ':' line with
  | (_, none) => cls
  | (rawKey, some rawValue) =>
      let key := normKey rawKey
      let value : String := ⟨(stripCL rawValue).map Char.toLower⟩
      if subCL "urgency".data key then { cls with urgency := some value }
      else if subCL "category".data key then { cls with category := some value }
      else if subCL "needs".data key || subCL "ticket".data key then
        { cls with needs_ticket := some (value == "yes") }
      else cls

/-- The line-oriented parse of a classifier response, starting from the
empty dictionary. -/
def parseClassification (response : String) : Classification :=
  (splitCL '\n' response.data).foldl applyLine ⟨none, none, none⟩

/-- `SupervisorAgent._classify_inquiry`: parse the model response; any
model-call exception yields the fixed default. -/
def classify_inquiry (model : Except String String) : Classification :=
  match model with
  | .ok response => parseClassification response
  | .error _ => defaultClassification

/-! ## Supervisor (`src/agents/supervisor.py`) -/

/-- `SupervisorAgent._urgency_to_priority`: the fixed mapping on the
lower-cased urgency, `"Medium"` for anything else. -/
def urgency_to_priority (urgency : String) : String :=
  let u := lowerStr urgency
  if u == "low" then "Low"
  else if u == "medium" then "Medium"
  else if u == "high" then "High"
  else if u == "critical" then "Critical"
  else "Medium"

/-- Python `x or 'Not specified'` on an optional string: `None` and the
empty string both fall back. -/
def orNotSpecified : Option String → String
  | some s => if s == "" then "Not specified" else s
  | none => "Not specified"

/-- The JIRA ticket draft `_generate_ticket_details` produces. -/
structure TicketDraft where
  summary : String
  description : String
  labels : List String
  team : String
  priority : String
deriving DecidableEq

/-- `SupervisorAgent._generate_ticket_details`: truncate the summary to
97 characters plus an ellipsis when the question exceeds 100 characters,
fill the fixed description template, and build the label list and the
priority from the classification (with `"general"`/`"medium"` defaults
for missing keys). -/
def generate_ticket_details (question : String)
    (classification : Classification) (team : String)
    (environment deadline : Option String) : TicketDraft :=
  let summary :=
    if 100 < question.length then String.mk (question.data.take 97) ++ "..."
    else question
  let urgency := classification.urgency.getD "medium"
  let category := classification.category.getD "general"
  let description :=
    "Infrastructure Inquiry\n\n**Question:**\n" ++ question ++
    "\n\n**Details:**\n- Environment: " ++ orNotSpecified environment ++
    "\n- Deadline: " ++ orNotSpecified deadline ++
    "\n- Urgency: " ++ urgency ++
    "\n- Category: " ++ category ++
    "\n\n**Assigned Team:** " ++ team ++
    "\n\nThis ticket was automatically created by the Infrastructure Bot.\n"
  let labels := [team, category, urgency, "automated", "infrastructure"]
  ⟨summary, description, labels, team, urgency_to_priority urgency⟩

/-- The result dictionary of `process_inquiry`; keys set on only one
branch are `Option`s. -/
structure PipelineResult where
  timestamp : String
  question : String
  user_id : String
  channel_id : String
  environment : Option String
  deadline : Option String
  steps : List String
  classification : Classification
  knowledge_base : KBAnswer
  action : String
  answer : Option String
  source : Option Candidate
  requires_ticket : Bool
  routing : Option RoutingDecision
  assigned_team : Option String
  ticket_details : Option TicketDraft
  completed : Bool
deriving DecidableEq

/-- The pipeline after classification (the body of `process_inquiry` from
step 2 on, with the already-computed classification in hand): search the
knowledge base with the raw question, then branch on `found` and on the
confidence being `"high"` or `"medium"`. -/
def pipelineFrom (classification : Classification)
    (synth routerLLM : String → String → Except String String)
    (cacheGet : String → Option (List Candidate))
    (backend : String → Nat → Except String (List RawHit))
    (timestamp question user_id channel_id : String)
    (environment deadline : Option String) : PipelineResult :=
  let aq := answer_question synth cacheGet backend question
  let kb := aq.res
  if kb.found && (["high", "medium"] : List String).contains kb.confidence then
    { timestamp := timestamp, question := question, user_id := user_id,
      channel_id := channel_id, environment := environment,
      deadline := deadline,
      steps := ["classified", "searched_kb", "answered_from_kb"],
      classification := classification, knowledge_base := kb,
      action := "answer_from_kb", answer := kb.answer, source := kb.source,
      requires_ticket := false, routing := none, assigned_team := none,
      ticket_details := none, completed := true }
  else
    let routing :=
      route_inquiry routerLLM question (classification.category.getD "")
    let td := generate_ticket_details question classification routing.team
      environment deadline
    { timestamp := timestamp, question := question, user_id := user_id,
      channel_id := channel_id, environment := environment,
      deadline := deadline,
      steps := ["classified", "searched_kb", "routed_to_team",
                "generated_ticket_details"],
      classification := classification, knowledge_base := kb,
      action := "create_ticket", answer := none, source := none,
      requires_ticket := true, routing := some routing,
      assigned_team := some routing.team, ticket_details := some td,
      completed := true }

/-- `SupervisorAgent.process_inquiry`: classify (with its internal
exception handling), then run the rest of the pipeline. -/
def process_inquiry (classifierLLM : String → Except String String)
    (synth routerLLM : String → String → Except String String)
    (cacheGet : String → Option (List Candidate))
    (backend : String → Nat → Except String (List RawHit))
    (timestamp question user_id channel_id : String)
    (environment deadline : Option String) : PipelineResult :=
  pipelineFrom (classify_inquiry (classifierLLM question)) synth routerLLM
    cacheGet backend timestamp question user_id channel_id environment
    deadline

/-! ## Helper lemmas -/

/-- The relevance-tier bucketing, characterised at both boundaries. -/
lemma tierOf_spec (d : ℚ) :
    (tierOf d = "high" ↔ d < 3/10) ∧
    (tierOf d = "medium" ↔ 3/10 ≤ d ∧ d < 6/10) ∧
    (tierOf d = "low" ↔ 6/10 ≤ d) := by
  unfold tierOf
  split_ifs with h1 h2
  · exact ⟨⟨fun _ => h1, fun _ => rfl⟩,
      ⟨fun h => absurd h (by decide), fun h => absurd h1 (not_lt.mpr h.1)⟩,
      ⟨fun h => absurd h (by decide), fun h => absurd h1 (not_lt.mpr (by linarith))⟩⟩
  · exact ⟨⟨fun h => absurd h (by decide), fun h => absurd h h1⟩,
      ⟨fun _ => ⟨not_lt.mp h1, h2⟩, fun _ => rfl⟩,
      ⟨fun h => absurd h (by decide), fun h => absurd h2 (not_lt.mpr h)⟩⟩
  · exact ⟨⟨fun h => absurd h (by decide), fun h => absurd h h1⟩,
      ⟨fun h => absurd h (by decide), fun h => absurd h.2 h2⟩,
      ⟨fun _ => not_lt.mp h2, fun _ => rfl⟩⟩

/-- A found answer always carries an answer string, a source, and the
confidence `"high"` (the first gate survivor's tier). -/
lemma answer_question_found (synth : String → String → Except String String)
    (cacheGet : String → Option (List Candidate))
    (backend : String → Nat → Except String (List RawHit))
    (question : String) :
    (answer_question synth cacheGet backend question).res.found = true →
      (answer_question synth cacheGet backend question).res.answer.isSome = true ∧
      (answer_question synth cacheGet backend question).res.source.isSome = true ∧
      (answer_question synth cacheGet backend question).res.confidence = "high" := by
  unfold answer_question
  dsimp only
  split
  · intro h; simp at h
  · split
    · intro h; simp at h
    · rename_i best rest heq
      have hmem : best ∈ (search_knowledge_base cacheGet backend question 3).results.filter strictGate := by
        rw [heq]; exact List.mem_cons_self _ _
      have hgate : strictGate best = true := (List.mem_filter.mp hmem).2
      have hhigh : best.relevance = "high" := by
        have := (Bool.and_eq_true _ _).mp hgate
        exact eq_of_beq this.1
      split
      · intro _; exact ⟨rfl, rfl, hhigh⟩
      · intro h; simp at h

/-- `find?` returns the element at the first index satisfying the
predicate. -/
lemma find?_first {α : Type} (p : α → Bool) (l : List α) (i : Fin l.length)
    (hp : p (l.get i) = true)
    (hb : ∀ j : Fin l.length, (j : Nat) < (i : Nat) → p (l.get j) = false) :
    l.find? p = some (l.get i) := by
  induction l with
  | nil => exact absurd i.isLt (by simp)
  | cons x xs ih =>
      rcases i with ⟨iv, hiv⟩
      cases iv with
      | zero =>
          simp only [List.get] at hp
          simp [List.find?, hp]
      | succ k =>
          have hx : p x = false := hb ⟨0, Nat.succ_pos _⟩ (Nat.succ_pos k)
          have hrec := ih ⟨k, Nat.lt_of_succ_lt_succ hiv⟩
            (by simpa using hp)
            (fun j hj => by
              have := hb ⟨j.val + 1, Nat.succ_lt_succ j.isLt⟩
                (Nat.succ_lt_succ hj)
              simpa using this)
          simp [List.find?, hx]
          simpa using hrec

/-- The seed is a lower bound of a `foldl Nat.max`. -/
lemma le_foldl_max (l : List Nat) (a : Nat) : a ≤ l.foldl Nat.max a := by
  induction l generalizing a with
  | nil => simp
  | cons x xs ih => exact le_trans (Nat.le_max_left a x) (ih (Nat.max a x))

/-- Every member of the list is a lower bound of its `foldl Nat.max`. -/
lemma mem_le_foldl_max (l : List Nat) : ∀ a x : Nat, x ∈ l →
    x ≤ l.foldl Nat.max a := by
  induction l with
  | nil => intro a x hx; cases hx
  | cons y ys ih =>
      intro a x hx
      rcases List.mem_cons.mp hx with rfl | hx2
      · exact le_trans (Nat.le_max_right a x) (le_foldl_max ys (Nat.max a x))
      · exact ih (Nat.max a y) x hx2

/-- A `foldl Nat.max` is the seed or a member of the list. -/
lemma foldl_max_choice (l : List Nat) : ∀ a : Nat,
    l.foldl Nat.max a = a ∨ l.foldl Nat.max a ∈ l := by
  induction l with
  | nil => exact fun a => Or.inl rfl
  | cons x xs ih =>
      intro a
      rcases ih (Nat.max a x) with h | h
      · rcases le_total a x with hax | hax
        · refine Or.inr ?_
          rw [List.foldl_cons, h, show Nat.max a x = x by simp [Nat.max_def, hax]]
          exact List.mem_cons_self _ _
        · refine Or.inl ?_
          rw [List.foldl_cons, h, show Nat.max a x = a by simp [Nat.max_def]; omega]
      · exact Or.inr (List.mem_cons_of_mem _ h)

/-! ## Claim theorems -/

/-- C6: every candidate produced by the retriever's `search` carries the
relevance tier determined exactly by its distance score: `"high"` iff
`d < 0.3`, `"medium"` iff `0.3 ≤ d < 0.6`, and `"low"` iff `d ≥ 0.6`,
exact at both boundaries. -/
theorem c6_relevance_tier_boundaries
    (backend : String → Nat → Except String (List RawHit))
    (query : String) (k : Nat) (c : Candidate)
    (hc : c ∈ vectorSearch backend query k) :
    (c.relevance = "high" ↔ c.score < 3/10) ∧
    (c.relevance = "medium" ↔ 3/10 ≤ c.score ∧ c.score < 6/10) ∧
    (c.relevance = "low" ↔ 6/10 ≤ c.score) := by
  unfold vectorSearch at hc
  cases hbk : backend query k with
  | error e => rw [hbk] at hc; simp at hc
  | ok raws =>
      rw [hbk] at hc
      rcases List.mem_map.mp hc with ⟨r, _, rfl⟩
      exact tierOf_spec r.distance

/-- C6 witness: a backend hit at distance 0.299 is assigned tier
`"high"`, through the theorem at a concrete backend. -/
theorem c6_witness :
    ((⟨"q", "a", "t", [], "e", 299/1000,
       tierOf (299/1000)⟩ : Candidate).relevance = "high" ↔
      (⟨"q", "a", "t", [], "e", 299/1000,
        tierOf (299/1000)⟩ : Candidate).score < 3/10) ∧
    tierOf (299/1000) = "high" := by
  have h := c6_relevance_tier_boundaries
    (fun _ _ => .ok [⟨"q", "a", "t", [], "e", 299/1000⟩]) "x" 3
    ⟨"q", "a", "t", [], "e", 299/1000, tierOf (299/1000)⟩
    (by simp [vectorSearch])
  exact ⟨h.1, h.1.mpr (by norm_num)⟩

/-- C3: the strict gate of `answer_question` keeps exactly the candidates
with tier `"high"` and distance score below 0.4 (so 0.35 passes and 0.45
does not); an empty candidate set returns `found=false` with confidence
`"none"`, a non-empty set the gate empties returns `found=false` with
confidence `"low"`, and in both cases synthesis is never invoked. -/
theorem c3_strict_gate (synth : String → String → Except String String)
    (cacheGet : String → Option (List Candidate))
    (backend : String → Nat → Except String (List RawHit))
    (question : String) :
    (∀ r : Candidate, strictGate r = true ↔ (r.relevance = "high" ∧ r.score < 2/5)) ∧
    (∀ r : Candidate, r.relevance = "high" → r.score = 7/20 → strictGate r = true) ∧
    (∀ r : Candidate, r.relevance = "high" → r.score = 9/20 → strictGate r = false) ∧
    ((search_knowledge_base cacheGet backend question 3).results = [] →
      (answer_question synth cacheGet backend question).res =
        ⟨false, none, none, "none", none, none, none⟩ ∧
      (answer_question synth cacheGet backend question).synthesisQueried = false) ∧
    ((search_knowledge_base cacheGet backend question 3).results ≠ [] →
     (search_knowledge_base cacheGet backend question 3).results.filter strictGate = [] →
      (answer_question synth cacheGet backend question).res =
        ⟨false, none, none, "low", some true, none, none⟩ ∧
      (answer_question synth cacheGet backend question).synthesisQueried = false) ∧
    (∀ l, (answer_question synth cacheGet backend question).res.all_results = some l →
      l = (search_knowledge_base cacheGet backend question 3).results.filter strictGate) := by
  refine ⟨?_, ?_, ?_, ?_, ?_, ?_⟩
  · intro r
    simp [strictGate, Bool.and_eq_true, beq_iff_eq, decide_eq_true_eq]
  · intro r h1 h2
    simp [strictGate, h1, h2]
    norm_num
  · intro r h1 h2
    simp [strictGate, h1, h2]
    norm_num
  · intro hres
    unfold answer_question
    dsimp only
    split
    · exact ⟨rfl, rfl⟩
    · rename_i hne
      exact absurd (List.isEmpty_iff.mpr hres) hne
  · intro hne hfilter
    unfold answer_question
    dsimp only
    split
    · rename_i hemp
      exact absurd (List.isEmpty_iff.mp hemp) hne
    · split
      · exact ⟨rfl, rfl⟩
      · rename_i best rest heq
        rw [hfilter] at heq
        cases heq
  · intro l hl
    unfold answer_question at hl
    dsimp only at hl
    revert hl
    split
    · intro hl; simp at hl
    · split
      · intro hl; simp at hl
      · rename_i best rest heq
        split
        · intro hl
          simp only at hl
          rw [Option.some_inj] at hl
          rw [hl] at heq
          exact heq.symm
        · intro hl; simp at hl

/-- C3 witness: with a failing cache and backend the candidate set is
empty and the result is `found=false, confidence="none"`; the gate passes
a high-tier candidate at distance 0.35 and rejects one at 0.45. -/
theorem c3_witness :
    (answer_question (fun _ _ => .error "e") (fun _ => none)
        (fun _ _ => .error "down") "q").res =
      ⟨false, none, none, "none", none, none, none⟩ ∧
    strictGate ⟨"", "", "", [], "", 7/20, "high"⟩ = true ∧
    strictGate ⟨"", "", "", [], "", 9/20, "high"⟩ = false := by
  have h := c3_strict_gate (fun _ _ => .error "e") (fun _ => none)
    (fun _ _ => .error "down") "q"
  refine ⟨(h.2.2.2.1 ?_).1, h.2.1 _ rfl rfl, h.2.2.1 _ rfl rfl⟩
  simp [search_knowledge_base, pyTruthy, vectorSearch]

/-- C7: `search_knowledge_base` consults the cache under the key
`"kb_search:" + question` and nothing else of the cache; a hit returns
the cached set unchanged without querying the backend or writing the
cache; a miss queries the backend and writes the raw result back under
the same key with ttl 3600 if and only if it is non-empty. -/
theorem c7_cache_protocol (cacheGet : String → Option (List Candidate))
    (backend : String → Nat → Except String (List RawHit))
    (query : String) (k : Nat) :
    (∀ l, cacheGet ("kb_search:" ++ query) = some l → l ≠ [] →
      search_knowledge_base cacheGet backend query k = ⟨l, false, none⟩) ∧
    (cacheGet ("kb_search:" ++ query) = none →
      (search_knowledge_base cacheGet backend query k).results =
          vectorSearch backend query k ∧
      (search_knowledge_base cacheGet backend query k).backendQueried = true ∧
      ((search_knowledge_base cacheGet backend query k).cacheWrite = none ↔
        vectorSearch backend query k = []) ∧
      (vectorSearch backend query k ≠ [] →
        (search_knowledge_base cacheGet backend query k).cacheWrite =
          some ("kb_search:" ++ query, vectorSearch backend query k, 3600))) ∧
    (∀ cacheGet2 : String → Option (List Candidate),
      cacheGet2 ("kb_search:" ++ query) = cacheGet ("kb_search:" ++ query) →
      search_knowledge_base cacheGet2 backend query k =
        search_knowledge_base cacheGet backend query k) := by
  refine ⟨?_, ?_, ?_⟩
  · intro l hl hne
    unfold search_knowledge_base
    dsimp only
    rw [hl]
    cases l with
    | nil => exact absurd rfl hne
    | cons c cs => rfl
  · intro hl
    unfold search_knowledge_base
    dsimp only
    rw [hl]
    simp only [pyTruthy, if_false, Bool.false_eq_true]
    split
    · rename_i hemp
      refine ⟨rfl, rfl, ?_, ?_⟩
      · simp [List.isEmpty_iff.mp hemp]
      · intro hne; exact absurd (List.isEmpty_iff.mp hemp) hne
    · rename_i hemp
      refine ⟨rfl, rfl, ?_, fun _ => rfl⟩
      constructor
      · intro h; cases h
      · intro h; exact absurd (List.isEmpty_iff.mpr h) hemp
  · intro cacheGet2 h
    unfold search_knowledge_base
    dsimp only
    rw [h]

/-- C7 witness: a cached non-empty candidate set is returned unchanged,
the backend never queried, nothing written. -/
theorem c7_witness :
    search_knowledge_base
        (fun _ => some [⟨"q", "a", "t", [], "e", 1/10, "high"⟩])
        (fun _ _ => .error "down") "q" 3 =
      ⟨[⟨"q", "a", "t", [], "e", 1/10, "high"⟩], false, none⟩ := by
  exact (c7_cache_protocol
    (fun _ => some [⟨"q", "a", "t", [], "e", 1/10, "high"⟩])
    (fun _ _ => .error "down") "q" 3).1 _ rfl (by simp)

/-- C5 counterexample: an empty model response is not an exception, so
`_classify_inquiry` parses it to the empty classification, not to the
fixed default `{urgency: medium, category: other, needs_ticket: true}`
the claim promises for malformed or empty responses. -/
theorem c5_counterexample :
    classify_inquiry (.ok "") = ⟨none, none, none⟩ ∧
    classify_inquiry (.ok "") ≠ defaultClassification := by
  exact ⟨rfl, by decide⟩

/-- C5 (amended): the fixed default is returned exactly on a model-call
exception; a well-formed response parses to its three fields, and a
malformed or empty response parses leniently (never raising) to a
partial or empty classification rather than the default. -/
theorem c5_default_on_model_exception (e : String) :
    classify_inquiry (.error e) = defaultClassification ∧
    classify_inquiry
        (.ok "URGENCY: high\nCATEGORY: database\nNEEDS_TICKET: yes") =
      ⟨some "high", some "database", some true⟩ ∧
    classify_inquiry (.ok "garbage") = ⟨none, none, none⟩ := by
  exact ⟨rfl, by decide, by decide⟩

/-- C5 witness: the amended theorem at the concrete exception
`"timeout"`. -/
theorem c5_witness :
    classify_inquiry (.error "timeout") = defaultClassification := by
  exact (c5_default_on_model_exception "timeout").1

/-- C8: ticket-detail synthesis truncates the summary to the first 97
characters plus `"..."` exactly when the question exceeds 100 characters
(else the question verbatim), emits the labels
`[team, category, urgency, "automated", "infrastructure"]`, and maps the
(classifier-produced, hence lower-cased) urgency to the priority by the
fixed table, `"Medium"` for any unrecognized urgency. -/
theorem c8_ticket_details (question u c team : String) (nt : Option Bool)
    (environment deadline : Option String) (hu : lowerStr u = u) :
    (100 < question.length →
      (generate_ticket_details question ⟨some u, some c, nt⟩ team
          environment deadline).summary =
        String.mk (question.data.take 97) ++ "...") ∧
    (question.length ≤ 100 →
      (generate_ticket_details question ⟨some u, some c, nt⟩ team
          environment deadline).summary = question) ∧
    (generate_ticket_details question ⟨some u, some c, nt⟩ team
        environment deadline).labels =
      [team, c, u, "automated", "infrastructure"] ∧
    (u = "low" → (generate_ticket_details question ⟨some u, some c, nt⟩ team
        environment deadline).priority = "Low") ∧
    (u = "medium" → (generate_ticket_details question ⟨some u, some c, nt⟩ team
        environment deadline).priority = "Medium") ∧
    (u = "high" → (generate_ticket_details question ⟨some u, some c, nt⟩ team
        environment deadline).priority = "High") ∧
    (u = "critical" → (generate_ticket_details question ⟨some u, some c, nt⟩ team
        environment deadline).priority = "Critical") ∧
    (u ∉ (["low", "medium", "high", "critical"] : List String) →
      (generate_ticket_details question ⟨some u, some c, nt⟩ team
        environment deadline).priority = "Medium") := by
  have hpr : (generate_ticket_details question ⟨some u, some c, nt⟩ team
      environment deadline).priority = urgency_to_priority u := rfl
  have hup : urgency_to_priority u =
      (if u == "low" then "Low" else if u == "medium" then "Medium"
       else if u == "high" then "High" else if u == "critical" then "Critical"
       else "Medium") := by
    unfold urgency_to_priority
    rw [hu]
  refine ⟨?_, ?_, rfl, ?_, ?_, ?_, ?_, ?_⟩
  · intro h
    unfold generate_ticket_details
    dsimp only
    rw [if_pos h]
  · intro h
    unfold generate_ticket_details
    dsimp only
    rw [if_neg (not_lt.mpr h)]
  · intro h; subst h; rw [hpr, hup]; rfl
  · intro h; subst h; rw [hpr, hup]; rfl
  · intro h; subst h; rw [hpr, hup]; rfl
  · intro h; subst h; rw [hpr, hup]; rfl
  · intro h
    simp only [List.mem_cons, List.not_mem_nil, or_false, not_or] at h
    obtain ⟨h1, h2, h3, h4⟩ := h
    rw [hpr, hup]
    simp [h1, h2, h3, h4]

set_option maxRecDepth 4000 in
/-- C8 witness: a 150-character question yields the 97-character prefix
plus ellipsis, the label list in order, and the unrecognized urgency
`"urgent"` maps to priority `"Medium"`. -/
theorem c8_witness :
    lowerStr "urgent" = "urgent" ∧
    (generate_ticket_details (String.mk (List.replicate 150 'x'))
        ⟨some "urgent", some "deployment", some true⟩ "devops"
        none none).summary = String.mk (List.replicate 97 'x') ++ "..." ∧
    (generate_ticket_details (String.mk (List.replicate 150 'x'))
        ⟨some "urgent", some "deployment", some true⟩ "devops"
        none none).labels =
      ["devops", "deployment", "urgent", "automated", "infrastructure"] ∧
    (generate_ticket_details (String.mk (List.replicate 150 'x'))
        ⟨some "urgent", some "deployment", some true⟩ "devops"
        none none).priority = "Medium" := by
  have h := c8_ticket_details (String.mk (List.replicate 150 'x'))
    "urgent" "deployment" "devops" (some true) none none (by decide)
  refine ⟨by decide, ?_, h.2.2.1, h.2.2.2.2.2.2.2 (by decide)⟩
  have hs := h.1 (by decide)
  rw [hs]
  decide

set_option linter.unusedVariables false in
/-- C10: whenever `answer_question` on a retriever-produced candidate set
(each candidate's tier is the one its distance determines, the claim's
framing hypothesis — the property in fact holds without it, since the
strict gate alone forces the tier) returns `found=true`, the confidence
is exactly `"high"`, never `"medium"`, so the `"medium"` alternative of
the Supervisor's branch condition can never be why an answer is
accepted. -/
theorem c10_found_only_high (synth : String → String → Except String String)
    (cacheGet : String → Option (List Candidate))
    (backend : String → Nat → Except String (List RawHit))
    (question : String)
    (htier : ∀ c ∈ (search_knowledge_base cacheGet backend question 3).results,
      c.relevance = tierOf c.score) :
    (answer_question synth cacheGet backend question).res.found = true →
      (answer_question synth cacheGet backend question).res.confidence = "high" ∧
      (answer_question synth cacheGet backend question).res.confidence ≠ "medium" := by
  intro hf
  have h := answer_question_found synth cacheGet backend question hf
  refine ⟨h.2.2, ?_⟩
  rw [h.2.2]
  decide

/-- C4: keyword routing scores each team of the fixed enumeration by how
many of its keywords occur as literal substrings of the lower-cased
question; when every team scores 0 keyword matching yields no decision,
and otherwise the first team (in enumeration order) attaining the maximal
score — in particular a team with the strictly highest score — wins with
method `"keyword"` and confidence `"high"`. -/
theorem c4_keyword_routing (routerLLM : String → String → Except String String)
    (question category : String) :
    ((∀ p ∈ TEAMS, teamScore (lowerStr question) p.2 = 0) →
      keywordMatch (lowerStr question) = none) ∧
    (∀ i : Fin TEAMS.length,
      0 < teamScore (lowerStr question) (TEAMS.get i).2 →
      (∀ j : Fin TEAMS.length,
        teamScore (lowerStr question) (TEAMS.get j).2 ≤
          teamScore (lowerStr question) (TEAMS.get i).2) →
      (∀ j : Fin TEAMS.length, (j : Nat) < (i : Nat) →
        teamScore (lowerStr question) (TEAMS.get j).2 <
          teamScore (lowerStr question) (TEAMS.get i).2) →
      keywordMatch (lowerStr question) = some (TEAMS.get i).1 ∧
      route_inquiry routerLLM question category =
        ⟨(TEAMS.get i).1, "keyword", "high",
         "Matched keywords for " ++ (TEAMS.get i).1 ++ " team"⟩) := by
  constructor
  · intro hz
    have hz' : ∀ v ∈ (TEAMS.map (fun p =>
        (p.1, teamScore (lowerStr question) p.2))).map Prod.snd, v = 0 := by
      intro v hv
      rcases List.mem_map.mp hv with ⟨q, hq, rfl⟩
      rcases List.mem_map.mp hq with ⟨p, hp, rfl⟩
      exact hz p hp
    unfold keywordMatch
    dsimp only
    have hmax : ((TEAMS.map (fun p => (p.1, teamScore (lowerStr question) p.2))).map
        Prod.snd).foldl Nat.max 0 = 0 := by
      rcases foldl_max_choice ((TEAMS.map (fun p =>
          (p.1, teamScore (lowerStr question) p.2))).map Prod.snd) 0 with h | h
      · exact h
      · exact hz' _ h
    rw [hmax]
    simp
  · intro i hpos hle hfirst
    have hub : ∀ v ∈ (TEAMS.map (fun p =>
        (p.1, teamScore (lowerStr question) p.2))).map Prod.snd,
        v ≤ teamScore (lowerStr question) (TEAMS.get i).2 := by
      intro v hv
      rcases List.mem_map.mp hv with ⟨q, hq, rfl⟩
      rcases List.mem_map.mp hq with ⟨p, hp, rfl⟩
      obtain ⟨j, hj⟩ := List.mem_iff_get.mp hp
      rw [← hj]
      exact hle j
    have hmax : ((TEAMS.map (fun p => (p.1, teamScore (lowerStr question) p.2))).map
        Prod.snd).foldl Nat.max 0 = teamScore (lowerStr question) (TEAMS.get i).2 := by
      apply le_antisymm
      · rcases foldl_max_choice ((TEAMS.map (fun p =>
            (p.1, teamScore (lowerStr question) p.2))).map Prod.snd) 0 with h | h
        · rw [h]; exact Nat.zero_le _
        · exact hub _ h
      · apply mem_le_foldl_max
        refine List.mem_map.mpr
          ⟨((TEAMS.get i).1, teamScore (lowerStr question) (TEAMS.get i).2), ?_, rfl⟩
        exact List.mem_map.mpr ⟨TEAMS.get i, List.get_mem TEAMS i.1 i.2, rfl⟩
    have key : keywordMatch (lowerStr question) = some (TEAMS.get i).1 := by
      unfold keywordMatch
      dsimp only
      rw [hmax, if_pos hpos]
      have hfind := find?_first
        (fun p => p.2 == teamScore (lowerStr question) (TEAMS.get i).2)
        (TEAMS.map (fun p => (p.1, teamScore (lowerStr question) p.2)))
        ⟨i.val, by simp⟩
        (by simp [List.get_eq_getElem, List.getElem_map])
        (by
          intro j hj
          have hlt := hfirst ⟨j.val, by simpa using j.isLt⟩ hj
          simp only [List.get_eq_getElem, List.getElem_map]
          exact beq_eq_false_iff_ne.mpr (Nat.ne_of_lt hlt))
      rw [hfind]
      simp [List.get_eq_getElem, List.getElem_map]
    refine ⟨key, ?_⟩
    unfold route_inquiry
    rw [key]

/-- C4 witness: "our postgres is down in prod" scores 1 for database and
0 elsewhere, and routes to database by keyword with high confidence. -/
theorem c4_witness :
    route_inquiry (fun _ _ => .error "x") "our postgres is down in prod" "" =
      ⟨"database", "keyword", "high", "Matched keywords for database team"⟩ := by
  have h := (c4_keyword_routing (fun _ _ => .error "x")
      "our postgres is down in prod" "").2
    ⟨2, by decide⟩ (by decide) (by decide) (by decide)
  exact h.2.trans (by decide)

/-- C10 witness: a backend hit at distance 0.1 for the asked question and
a successful synthesis yield `found=true` with confidence `"high"`,
through the theorem at concrete collaborators. -/
theorem c10_witness :
    (answer_question (fun _ _ => .ok "restart it") (fun _ => none)
        (fun _ _ => .ok [⟨"How do I restart a pod?", "kubectl rollout restart",
                          "platform", [], "kb1", 1/10⟩])
        "How do I restart a pod?").res.found = true ∧
    (answer_question (fun _ _ => .ok "restart it") (fun _ => none)
        (fun _ _ => .ok [⟨"How do I restart a pod?", "kubectl rollout restart",
                          "platform", [], "kb1", 1/10⟩])
        "How do I restart a pod?").res.confidence = "high" := by
  have hres : (search_knowledge_base (fun _ => none)
      (fun _ _ => .ok [⟨"How do I restart a pod?", "kubectl rollout restart",
                        "platform", [], "kb1", 1/10⟩])
      "How do I restart a pod?" 3).results =
      [⟨"How do I restart a pod?", "kubectl rollout restart", "platform", [],
        "kb1", 1/10, tierOf (1/10)⟩] := rfl
  have hhigh : tierOf (1/10) = "high" := by norm_num [tierOf]
  have hgate : strictGate ⟨"How do I restart a pod?", "kubectl rollout restart",
      "platform", [], "kb1", 1/10, tierOf (1/10)⟩ = true := by
    simp only [strictGate, hhigh]
    norm_num
  have hfil : List.filter strictGate
      [⟨"How do I restart a pod?", "kubectl rollout restart", "platform", [],
        "kb1", 1/10, tierOf (1/10)⟩] =
      [⟨"How do I restart a pod?", "kubectl rollout restart", "platform", [],
        "kb1", 1/10, tierOf (1/10)⟩] := by
    rw [List.filter_cons, hgate]
    rfl
  have hfound : (answer_question (fun _ _ => .ok "restart it") (fun _ => none)
      (fun _ _ => .ok [⟨"How do I restart a pod?", "kubectl rollout restart",
                        "platform", [], "kb1", 1/10⟩])
      "How do I restart a pod?").res.found = true := by
    unfold answer_question
    dsimp only
    rw [hres, hfil]
    rfl
  refine ⟨hfound, ?_⟩
  refine (c10_found_only_high _ _ _ _ ?_ hfound).1
  intro c hc
  rw [hres] at hc
  rcases List.mem_singleton.mp hc with rfl
  rfl

/-- C1: per processed inquiry exactly one branch payload is populated:
on a found knowledge answer with confidence high or medium the action is
`answer_from_kb` with an answer and a source and neither routing nor
ticket draft; otherwise the action is `create_ticket` with the Router's
decision (called with the question and the classification's category) and
a ticket draft and no answer. -/
theorem c1_exactly_one_branch (classifierLLM : String → Except String String)
    (synth routerLLM : String → String → Except String String)
    (cacheGet : String → Option (List Candidate))
    (backend : String → Nat → Except String (List RawHit))
    (timestamp question user_id channel_id : String)
    (environment deadline : Option String) :
    let r := process_inquiry classifierLLM synth routerLLM cacheGet backend
      timestamp question user_id channel_id environment deadline
    ((r.knowledge_base.found = true ∧ (r.knowledge_base.confidence = "high" ∨
        r.knowledge_base.confidence = "medium")) →
      r.action = "answer_from_kb" ∧ r.answer.isSome = true ∧
      r.source.isSome = true ∧ r.routing = none ∧ r.ticket_details = none) ∧
    (¬(r.knowledge_base.found = true ∧ (r.knowledge_base.confidence = "high" ∨
        r.knowledge_base.confidence = "medium")) →
      r.action = "create_ticket" ∧ r.answer = none ∧
      r.routing = some (route_inquiry routerLLM question
        ((classify_inquiry (classifierLLM question)).category.getD "")) ∧
      r.ticket_details.isSome = true) ∧
    (r.answer.isSome = true ↔ r.ticket_details = none) := by
  dsimp only
  have hfound := answer_question_found synth cacheGet backend question
  unfold process_inquiry pipelineFrom
  dsimp only
  split
  · rename_i hcond
    rw [Bool.and_eq_true] at hcond
    refine ⟨fun _ => ⟨rfl, ?_, ?_, rfl, rfl⟩, fun hn => ?_, ?_⟩
    · exact (hfound hcond.1).1
    · exact (hfound hcond.1).2.1
    · refine absurd ⟨hcond.1, ?_⟩ hn
      have := hcond.2
      simp only [List.contains_cons, List.contains_nil, Bool.or_eq_true,
        beq_iff_eq, Bool.false_eq_true, or_false] at this
      tauto
    · exact ⟨fun _ => rfl, fun _ => (hfound hcond.1).1⟩
  · rename_i hcond
    refine ⟨fun hc => ?_, fun _ => ⟨rfl, rfl, rfl, rfl⟩, ?_⟩
    · refine absurd ?_ hcond
      rw [Bool.and_eq_true]
      refine ⟨hc.1, ?_⟩
      simp only [List.contains_cons, List.contains_nil, Bool.or_eq_true,
        beq_iff_eq, Bool.false_eq_true, or_false]
      tauto
    · simp

/-- C1 witness: with all collaborators failing on the question "hello"
the knowledge branch is not taken: the action is `create_ticket`, a
ticket draft is present and no answer is. -/
theorem c1_witness :
    (process_inquiry (fun _ => .error "a") (fun _ _ => .error "b")
        (fun _ _ => .error "c") (fun _ => none) (fun _ _ => .error "d")
        "t0" "hello" "u1" "ch1" none none).action = "create_ticket" ∧
    (process_inquiry (fun _ => .error "a") (fun _ _ => .error "b")
        (fun _ _ => .error "c") (fun _ => none) (fun _ _ => .error "d")
        "t0" "hello" "u1" "ch1" none none).answer = none := by
  have h := (c1_exactly_one_branch (fun _ => .error "a") (fun _ _ => .error "b")
    (fun _ _ => .error "c") (fun _ => none) (fun _ _ => .error "d")
    "t0" "hello" "u1" "ch1" none none).2.1 (by decide)
  exact ⟨h.1, h.2.1⟩

/-- C9: the classifier's `needs_ticket` flag never influences the branch:
two pipeline runs whose classifications agree on urgency and category
(so differ at most in `needs_ticket`) produce identical results except
for the recorded classification itself. -/
theorem c9_needs_ticket_never_consulted (c1 c2 : Classification)
    (synth routerLLM : String → String → Except String String)
    (cacheGet : String → Option (List Candidate))
    (backend : String → Nat → Except String (List RawHit))
    (timestamp question user_id channel_id : String)
    (environment deadline : Option String)
    (hu : c1.urgency = c2.urgency) (hc : c1.category = c2.category) :
    pipelineFrom c1 synth routerLLM cacheGet backend timestamp question
        user_id channel_id environment deadline =
      { pipelineFrom c2 synth routerLLM cacheGet backend timestamp question
          user_id channel_id environment deadline with
        classification := c1 } := by
  obtain ⟨u1, k1, n1⟩ := c1
  obtain ⟨u2, k2, n2⟩ := c2
  dsimp only at hu hc
  subst hu
  subst hc
  unfold pipelineFrom
  dsimp only
  by_cases h : ((answer_question synth cacheGet backend question).res.found &&
      (["high", "medium"] : List String).contains
        (answer_question synth cacheGet backend question).res.confidence) = true
  · rw [if_pos h, if_pos h]
  · rw [if_neg h, if_neg h]
    rfl

/-- C9 witness: the theorem at two concrete classifications differing
only in `needs_ticket`, with all collaborators failing. -/
theorem c9_witness :
    pipelineFrom ⟨some "high", some "database", some true⟩
        (fun _ _ => .error "e") (fun _ _ => .error "e") (fun _ => none)
        (fun _ _ => .error "e") "t0" "hello" "u1" "ch1" none none =
      { pipelineFrom ⟨some "high", some "database", some false⟩
          (fun _ _ => .error "e") (fun _ _ => .error "e") (fun _ => none)
          (fun _ _ => .error "e") "t0" "hello" "u1" "ch1" none none with
        classification := ⟨some "high", some "database", some true⟩ } := by
  exact c9_needs_ticket_never_consulted _ _ _ _ _ _ _ _ _ _ _ _ rfl rfl

/-- C2: the pipeline is total — for every input and every combination of
collaborator outcomes (the embedding catches each collaborator exception
exactly where the source does) the result is completed — and under total
collaborator failure on a keyword-free question the result is the
default-classified ticket routed to platform by method `default` with
confidence `low`. -/
theorem c2_total_collaborator_failure
    (classifierLLM : String → Except String String)
    (synth routerLLM : String → String → Except String String)
    (cacheGet : String → Option (List Candidate))
    (backend : String → Nat → Except String (List RawHit))
    (timestamp question user_id channel_id : String)
    (environment deadline : Option String) :
    (process_inquiry classifierLLM synth routerLLM cacheGet backend timestamp
        question user_id channel_id environment deadline).completed = true ∧
    (∀ e1 e2 e3 e4 : String, keywordMatch (lowerStr question) = none →
      process_inquiry (fun _ => .error e1) (fun _ _ => .error e2)
          (fun _ _ => .error e3) (fun _ => none) (fun _ _ => .error e4)
          timestamp question user_id channel_id environment deadline =
        { timestamp := timestamp, question := question, user_id := user_id,
          channel_id := channel_id, environment := environment,
          deadline := deadline,
          steps := ["classified", "searched_kb", "routed_to_team",
                    "generated_ticket_details"],
          classification := defaultClassification,
          knowledge_base := ⟨false, none, none, "none", none, none, none⟩,
          action := "create_ticket", answer := none, source := none,
          requires_ticket := true,
          routing := some ⟨"platform", "default", "low",
                           "Default routing due to error"⟩,
          assigned_team := some "platform",
          ticket_details := some (generate_ticket_details question
            defaultClassification "platform" environment deadline),
          completed := true }) := by
  constructor
  · unfold process_inquiry pipelineFrom
    dsimp only
    split
    · rfl
    · rfl
  · intro e1 e2 e3 e4 hkw
    unfold process_inquiry pipelineFrom route_inquiry
    dsimp only
    rw [hkw]
    rfl

/-- C2 witness: the keyword-free question "hello" under total collaborator
failure yields exactly the degraded default ticket result. -/
theorem c2_witness :
    process_inquiry (fun _ => .error "a") (fun _ _ => .error "b")
        (fun _ _ => .error "c") (fun _ => none) (fun _ _ => .error "d")
        "t0" "hello" "u1" "ch1" none none =
      { timestamp := "t0", question := "hello", user_id := "u1",
        channel_id := "ch1", environment := none, deadline := none,
        steps := ["classified", "searched_kb", "routed_to_team",
                  "generated_ticket_details"],
        classification := defaultClassification,
        knowledge_base := ⟨false, none, none, "none", none, none, none⟩,
        action := "create_ticket", answer := none, source := none,
        requires_ticket := true,
        routing := some ⟨"platform", "default", "low",
                         "Default routing due to error"⟩,
        assigned_team := some "platform",
        ticket_details := some (generate_ticket_details "hello"
          defaultClassification "platform" none none),
        completed := true } := by
  exact (c2_total_collaborator_failure (fun _ => .error "a")
    (fun _ _ => .error "b") (fun _ _ => .error "c") (fun _ => none)
    (fun _ _ => .error "d") "t0" "hello" "u1" "ch1" none none).2
    "a" "b" "c" "d" (by decide)

end ITA

example : ITA.strHas "our postgres is down" "postgres" = true := by decide
example : ITA.keywordMatch (ITA.lowerStr "Our Postgres is down") = some "database" := by decide
example : ITA.keywordMatch "hello" = none := by decide
example : ITA.tierOf (299/1000) = "high" := by norm_num [ITA.tierOf]
example : ITA.tierOf (3/10) = "medium" := by norm_num [ITA.tierOf]
example : ITA.tierOf (6/10) = "low" := by norm_num [ITA.tierOf]
example : ITA.pyStrip "  a b\n" = "a b" := by decide
example : ITA.splitCL ':' "a:b:c".data = ["a".data, "b".data, "c".data] := by decide
